import Mathlib

/-!
# Verification of the Health dashboard data-fetch-and-fallback core

Shallow embedding of the Health view module (AQI classifier, fallback data
generator, query settling, data shapers, and the render reads of the
air-quality card), with theorems settling the specification claims.

JavaScript `number` is modelled as `ℚ`; a possibly-`undefined` value as
`Option`; an out-of-bounds array read `a[i]` (which yields `undefined` in
JavaScript) as `List.get?`.  Environment-dependent primitives
(`new Date(s).getHours()`, `toLocaleDateString` weekday abbreviation,
`Date.prototype.toISOString`, `Math.random`) are passed in as function
parameters, since their outputs depend on the host clock, locale and RNG.
-/

namespace Health

/-- The `AqiCategory` interface: label plus two display colors. -/
structure AqiCategory where
  label : String
  color : String
  progressColor : String
deriving DecidableEq, Repr

/-- `getAQICategory`: pure classifier from an AQI number to a category,
via an ascending chain of inclusive comparisons. -/
def getAQICategory (aqi : ℚ) : AqiCategory :=
  if aqi ≤ 50 then ⟨"Good", "bg-green-100 text-green-800", "bg-green-500"⟩
  else if aqi ≤ 100 then ⟨"Moderate", "bg-yellow-100 text-yellow-800", "bg-yellow-500"⟩
  else if aqi ≤ 150 then ⟨"Unhealthy for Sensitive Groups", "bg-orange-100 text-orange-800", "bg-orange-500"⟩
  else if aqi ≤ 200 then ⟨"Unhealthy", "bg-red-100 text-red-800", "bg-red-500"⟩
  else if aqi ≤ 300 then ⟨"Very Unhealthy", "bg-purple-100 text-purple-800", "bg-purple-500"⟩
  else ⟨"Hazardous", "bg-rose-100 text-rose-800", "bg-rose-800"⟩

/-- The `current` block of the `AirQualityData` interface. -/
structure AirQualityCurrent where
  pm2_5 : ℚ
  pm10 : ℚ
  no2 : ℚ
  o3 : ℚ
  so2 : ℚ
  co : ℚ
  aqi : ℚ
  aqiCategory : AqiCategory

/-- The optional `hourly` block of the `AirQualityData` interface. -/
structure AirQualityHourly where
  time : List String
  pm2_5 : List ℚ
  pm10 : List ℚ
  aqi : List ℚ

/-- The `AirQualityData` interface. -/
structure AirQualityData where
  current : AirQualityCurrent
  hourly : Option AirQualityHourly

/-- The optional `hourly` block of the `AqiForecastData` interface:
`european_aqi` is required, `pm2_5` and `pm10` are optional series. -/
structure AqiForecastHourly where
  time : List String
  european_aqi : List ℚ
  pm2_5 : Option (List ℚ)
  pm10 : Option (List ℚ)

/-- The `AqiForecastData` interface. -/
structure AqiForecastData where
  hourly : Option AqiForecastHourly

/-- The optional `daily` block of the `PollenData` interface. -/
structure PollenDaily where
  time : List String
  grass_pollen : List ℚ
  tree_pollen : List ℚ
  weed_pollen : List ℚ

/-- The `PollenData` interface. -/
structure PollenData where
  daily : Option PollenDaily

/-- A chart point `name` is a string or a number in the source
(`name: string | number`). -/
inductive NameVal where
  | ofNum (q : ℚ)
  | ofStr (s : String)
deriving DecidableEq, Repr

/-- The `ChartDataPoint` interface: every data field is optional, and a
field the shaper does not set is `undefined`, i.e. `none`. -/
structure ChartDataPoint where
  name : NameVal
  aqi : Option ℚ := none
  pm2_5 : Option ℚ := none
  pm10 : Option ℚ := none
  grass : Option ℚ := none
  tree : Option ℚ := none
  weed : Option ℚ := none
deriving DecidableEq, Repr

/-- JavaScript `Array.prototype.map((x, i) => ...)` with the running index
explicit, starting at `i`. -/
def mapIdxFrom (f : Nat → α → β) : Nat → List α → List β
  | _, [] => []
  | i, a :: as => f i a :: mapIdxFrom f (i + 1) as

/-- `Array.prototype.map` with the element index as second callback
argument. -/
def mapIdx (f : Nat → α → β) (l : List α) : List β :=
  mapIdxFrom f 0 l

/-- `formatAqiForecastData`, parameterized by the host-dependent
`getHours : String → ℚ` standing for `new Date(s).getHours()`.  The
argument is an `Option` because the call site may pass `undefined`
(the `!data` guard).  `hourly.time.slice(0, 24)` is `List.take 24`;
`hourly.european_aqi[i]` is `List.get?` (out of bounds is `undefined`);
`hourly.pm2_5 ? hourly.pm2_5[i] : undefined` is `Option.bind` (a present
array, even empty, is truthy in JavaScript). -/
def formatAqiForecastData (getHours : String → ℚ)
    (data : Option AqiForecastData) : List ChartDataPoint :=
  match data with
  | none => []
  | some d =>
    match d.hourly with
    | none => []
    | some hourly =>
      mapIdx (fun i time =>
        { name := .ofNum (getHours time)
          aqi := hourly.european_aqi.get? i
          pm2_5 := hourly.pm2_5.bind (fun l => l.get? i)
          pm10 := hourly.pm10.bind (fun l => l.get? i) })
        (hourly.time.take 24)

/-- `formatPollenData`, parameterized by the host- and locale-dependent
`weekdayAbbrev : String → String` standing for
`new Date(s).toLocaleDateString(en-US, weekday short)`.  No truncation is
applied: the map runs over all of `daily.time`. -/
def formatPollenData (weekdayAbbrev : String → String)
    (data : Option PollenData) : List ChartDataPoint :=
  match data with
  | none => []
  | some d =>
    match d.daily with
    | none => []
    | some daily =>
      mapIdx (fun i date =>
        { name := .ofStr (weekdayAbbrev date)
          grass := daily.grass_pollen.get? i
          tree := daily.tree_pollen.get? i
          weed := daily.weed_pollen.get? i })
        daily.time

/-! ## Fallback data generator

The hourly fallback timestamps are built from `new Date()` shifted by
`setHours(getHours() + i)`: the `i`-th instant is the current instant plus
`i` hours.  We model instants as hour-counts (`Nat`) and keep the
host-dependent `toISOString` serialization as a parameter `toISO`;
`Math.random()` is a parameter stream `ℚ`-valued in `[0, 1)`. -/

/-- The 24 instants (in hours) of a fallback hourly series: the current
hour `now`, then one more hour per entry. -/
def fallbackHourlyInstants (now : Nat) : List Nat :=
  (List.range 24).map (fun i => now + i)

/-- `Math.round(base + rand * width)` for one jittered sample. -/
def jitter (base width : ℚ) (rand : ℚ) : ℚ :=
  (round (base + rand * width) : ℤ)

/-- `fallbackAirQualityData`: fixed `current` block (aqi 85, category
derived by `getAQICategory`), plus a generated 24-entry `hourly` block. -/
def fallbackAirQualityData (now : Nat) (toISO : Nat → String)
    (randPm25 randPm10 randAqi : Nat → ℚ) : AirQualityData :=
  { current :=
      { pm2_5 := 25, pm10 := 40, no2 := 15, o3 := 30, so2 := 8, co := 4
        aqi := 85, aqiCategory := getAQICategory 85 }
    hourly := some
      { time := (fallbackHourlyInstants now).map toISO
        pm2_5 := (List.range 24).map (fun i => jitter 20 10 (randPm25 i))
        pm10 := (List.range 24).map (fun i => jitter 35 15 (randPm10 i))
        aqi := (List.range 24).map (fun i => jitter 75 20 (randAqi i)) } }

/-- `fallbackAqiForecastData`: a generated 24-entry `hourly` block holding
`time` and `european_aqi` only (`pm2_5`/`pm10` absent). -/
def fallbackAqiForecastData (now : Nat) (toISO : Nat → String)
    (randAqi : Nat → ℚ) : AqiForecastData :=
  { hourly := some
      { time := (fallbackHourlyInstants now).map toISO
        european_aqi := (List.range 24).map (fun i => jitter 75 20 (randAqi i))
        pm2_5 := none
        pm10 := none } }

/-- `effectiveAirQualityData = airQualityData || fallbackAirQualityData`:
a present object is truthy, so the fallback is used exactly when the query
data is `undefined`. -/
def effectiveAirQualityData (airQualityData : Option AirQualityData)
    (now : Nat) (toISO : Nat → String)
    (randPm25 randPm10 randAqi : Nat → ℚ) : AirQualityData :=
  airQualityData.getD (fallbackAirQualityData now toISO randPm25 randPm10 randAqi)

/-! ## Remote data fetcher -/

/-- One line written to the developer console: `console.error(prefix, e)`. -/
structure ConsoleLine where
  heading : String
  detail : String
deriving DecidableEq, Repr

/-- The observable settled state of one query: `data` (absent on failure),
`isLoading`, `error`. -/
structure FetchState (α : Type) where
  data : Option α
  isLoading : Bool
  error : Option String

/-- The options object passed to `useQuery` for the air-quality current
fetch: `retry: 3`, `retryDelay: 1000`, always enabled, `onError` logging
to the console. -/
structure QueryConfig where
  retry : Nat
  retryDelay : Nat
  enabled : Bool
  onErrorHeading : String

/-- The `useQuery` configuration of the air-quality current fetch. -/
def airQualityQueryConfig : QueryConfig :=
  { retry := 3, retryDelay := 1000, enabled := true
    onErrorHeading := "Air quality data fetch error:" }

/-- First successful payload among a list of attempt outcomes. -/
def firstOk {α : Type} : List (Except String α) → Option α
  | [] => none
  | .ok v :: _ => some v
  | .error _ :: rest => firstOk rest

/-- Modelled from the spec: the retry semantics of the Remote Data Fetcher
(the query library is not part of this repository).  The query runs the
initial attempt plus up to `cfg.retry` retries; it settles on the first
success, and otherwise settles into a failed state with no data after all
`cfg.retry + 1` attempts failed, invoking `onError` once with the final
error, which is logged to the console and never thrown. -/
def runQuery {α : Type} (cfg : QueryConfig) (attempts : Nat → Except String α) :
    FetchState α × List ConsoleLine :=
  match firstOk ((List.range (cfg.retry + 1)).map attempts) with
  | some v => ({ data := some v, isLoading := false, error := none }, [])
  | none =>
    let finalErr := match attempts cfg.retry with
      | .error e => e
      | .ok _ => ""
    ({ data := none, isLoading := false, error := some finalErr },
     [{ heading := cfg.onErrorHeading, detail := finalErr }])

/-! ## Render reads of the Current Air Quality card

The non-loading branch of the Current Air Quality and Health Impact cards
reads `airQualityData.current.aqi` on the raw query value (not on
`effectiveAirQualityData`); in JavaScript a field read on `undefined`
throws a `TypeError`, modelled as `Except.error`. -/

/-- What the card displays when it renders: the skeleton while loading, or
the AQI value with its derived category. -/
inductive CardView where
  | skeleton
  | gauge (aqi : ℚ) (category : AqiCategory)
deriving DecidableEq, Repr

/-- The render path of the Current Air Quality card: if
`airQualityLoading` show the skeleton, otherwise evaluate
`getAQICategory(airQualityData.current.aqi)` and the sibling reads on the
raw `airQualityData`. -/
def renderCurrentAirQualityCard (st : FetchState AirQualityData) :
    Except String CardView :=
  if st.isLoading then .ok .skeleton
  else
    match st.data with
    | none => .error "TypeError: Cannot read properties of undefined (reading current)"
    | some d => .ok (.gauge d.current.aqi (getAQICategory d.current.aqi))

/-! ## Structural shape of the static fallbacks

To compare a fallback object literal with a live-data shape we encode
object literals as JSON trees and check key structure. -/

/-- A JSON value: number, string, boolean, array or object (ordered
key/value list, keys in literal order). -/
inductive Json where
  | num (q : ℚ)
  | str (s : String)
  | boolean (b : Bool)
  | arr (elems : List Json)
  | obj (fields : List (String × Json))

/-- Top-level keys of a JSON object, in literal order. -/
def Json.keys : Json → List String
  | .obj fields => fields.map Prod.fst
  | _ => []

/-- Field lookup on a JSON object. -/
def Json.getField : Json → String → Option Json
  | .obj fields, k => (fields.find? (fun p => p.fst == k)).map Prod.snd
  | _, _ => none

/-- Is this JSON value an array of numbers? -/
def Json.isNumArr : Json → Bool
  | .arr elems => elems.all (fun e => match e with | .num _ => true | _ => false)
  | _ => false

/-- Is this JSON value an array of strings? -/
def Json.isStrArr : Json → Bool
  | .arr elems => elems.all (fun e => match e with | .str _ => true | _ => false)
  | _ => false

/-- The live-data shape of `PollenData`: at most an optional `daily` key,
and when `daily` is present it is an object with exactly the keys `time`,
`grass_pollen`, `tree_pollen`, `weed_pollen`, the first an array of
strings and the rest arrays of numbers. -/
def matchesPollenDataShape (j : Json) : Bool :=
  match j with
  | .obj fields =>
    fields.all (fun p => p.fst == "daily") &&
    (match Json.getField j "daily" with
     | none => true
     | some d =>
       d.keys == ["time", "grass_pollen", "tree_pollen", "weed_pollen"] &&
       (match Json.getField d "time" with
        | some t => t.isStrArr
        | none => false) &&
       (["grass_pollen", "tree_pollen", "weed_pollen"].all (fun k =>
         match Json.getField d k with
         | some v => v.isNumArr
         | none => false)))
  | _ => false

/-- `fallbackPollenData` as a JSON tree, key for key from the source
object literal: four top-level level/category records and no `daily`
block. -/
def fallbackPollenDataJson : Json :=
  .obj
    [("grass", .obj [("level", .num 2), ("category", .str "Moderate")]),
     ("tree", .obj [("level", .num 3), ("category", .str "High")]),
     ("weed", .obj [("level", .num 1), ("category", .str "Low")]),
     ("mold", .obj [("level", .num 2), ("category", .str "Moderate")])]

/-- An `AqiCategory` record as a JSON object. -/
def aqiCategoryJson (c : AqiCategory) : Json :=
  .obj [("label", .str c.label), ("color", .str c.color),
        ("progressColor", .str c.progressColor)]

/-- `fallbackHealthRecommendationsData` as a JSON tree, key for key from
the source object literal. -/
def fallbackHealthRecommendationsDataJson : Json :=
  .obj
    [("temperature", .obj
       [("current", .num 28),
        ("isHot", .boolean true),
        ("isCold", .boolean false),
        ("recommendations", .arr
          [.str "Stay hydrated by drinking plenty of water throughout the day.",
           .str "Wear lightweight, loose-fitting clothing when outdoors.",
           .str "Use fans or air conditioning to stay cool indoors."])]),
     ("uv", .obj
       [("index", .num 7),
        ("category", .str "High"),
        ("recommendations", .arr
          [.str "Apply SPF 30+ sunscreen when outdoors.",
           .str "Wear sunglasses and a wide-brimmed hat for additional protection.",
           .str "Seek shade during peak UV hours (10am-4pm)."])]),
     ("airQuality", .obj
       [("aqi", .num 85),
        ("category", aqiCategoryJson (getAQICategory 85)),
        ("recommendations", .arr
          [.str "Consider limiting prolonged outdoor activities if you have respiratory conditions.",
           .str "Keep windows closed during periods of high pollution.",
           .str "Use air purifiers indoors if available."])])]

/-- Modelled from the spec: the live `HealthRecommendations` shape is not
declared in the source (the recommendations query is typed `any` and the
shape belongs to the backend); per the spec it is the nested per-domain
objects `temperature`, `uv`, `airQuality`, each carrying its current
readings (`current`/`isHot`/`isCold`, `index`/`category`,
`aqi`/`category`, as read by the view) plus an ordered sequence of
recommendation strings. -/
def matchesHealthRecommendationsShape (j : Json) : Bool :=
  j.keys == ["temperature", "uv", "airQuality"] &&
  (match Json.getField j "temperature" with
   | some t =>
     t.keys == ["current", "isHot", "isCold", "recommendations"] &&
     (match Json.getField t "recommendations" with
      | some r => r.isStrArr
      | none => false)
   | none => false) &&
  (match Json.getField j "uv" with
   | some u =>
     u.keys == ["index", "category", "recommendations"] &&
     (match Json.getField u "recommendations" with
      | some r => r.isStrArr
      | none => false)
   | none => false) &&
  (match Json.getField j "airQuality" with
   | some a =>
     a.keys == ["aqi", "category", "recommendations"] &&
     (match Json.getField a "recommendations" with
      | some r => r.isStrArr
      | none => false)
   | none => false)

/-! ## Named tier constants and concrete test inputs -/

/-- The Good tier record returned by `getAQICategory`. -/
def goodCategory : AqiCategory :=
  ⟨"Good", "bg-green-100 text-green-800", "bg-green-500"⟩

/-- The Moderate tier record returned by `getAQICategory`. -/
def moderateCategory : AqiCategory :=
  ⟨"Moderate", "bg-yellow-100 text-yellow-800", "bg-yellow-500"⟩

/-- The Unhealthy for Sensitive Groups tier record returned by
`getAQICategory`. -/
def sensitiveGroupsCategory : AqiCategory :=
  ⟨"Unhealthy for Sensitive Groups", "bg-orange-100 text-orange-800", "bg-orange-500"⟩

/-- The Unhealthy tier record returned by `getAQICategory`. -/
def unhealthyCategory : AqiCategory :=
  ⟨"Unhealthy", "bg-red-100 text-red-800", "bg-red-500"⟩

/-- The Very Unhealthy tier record returned by `getAQICategory`. -/
def veryUnhealthyCategory : AqiCategory :=
  ⟨"Very Unhealthy", "bg-purple-100 text-purple-800", "bg-purple-500"⟩

/-- The Hazardous tier record returned by `getAQICategory`. -/
def hazardousCategory : AqiCategory :=
  ⟨"Hazardous", "bg-rose-100 text-rose-800", "bg-rose-800"⟩

/-- A 30-timestamp forecast payload in the shape of the spec's
Scenario A. -/
def scenarioAForecast : AqiForecastData :=
  { hourly := some
      { time := List.replicate 30 "2024-01-01T07:00:00.000Z"
        european_aqi := List.replicate 30 60
        pm2_5 := none
        pm10 := none } }

/-- The two-day pollen payload of the spec's Scenario C. -/
def scenarioCPollen : PollenData :=
  { daily := some
      { time := ["2024-01-01", "2024-01-02"]
        grass_pollen := [1, 2]
        tree_pollen := [3, 4]
        weed_pollen := [5, 6] } }

/-- A forecast `hourly` block violating the parallel-array invariant:
two timestamps but a single `european_aqi` entry. -/
def shortSeriesForecastHourly : AqiForecastHourly :=
  { time := ["2024-01-01T00:00:00.000Z", "2024-01-01T01:00:00.000Z"]
    european_aqi := [44]
    pm2_5 := none
    pm10 := none }

/-- A pollen `daily` block violating the parallel-array invariant: two
timestamps but a single `grass_pollen` entry. -/
def shortSeriesPollenDaily : PollenDaily :=
  { time := ["2024-01-01", "2024-01-02"]
    grass_pollen := [1]
    tree_pollen := [3, 4]
    weed_pollen := [5, 6] }

/-- A pollen payload with 25 daily entries, more than the 24-entry cap of
the forecast shaper. -/
def longPollen : PollenData :=
  { daily := some
      { time := List.replicate 25 "2024-01-01"
        grass_pollen := []
        tree_pollen := []
        weed_pollen := [] } }

/-! ## Helper lemmas -/

theorem mapIdxFrom_length (f : Nat → α → β) :
    ∀ (i : Nat) (l : List α), (mapIdxFrom f i l).length = l.length := by
  intro i l
  induction l generalizing i with
  | nil => rfl
  | cons a as ih => simp [mapIdxFrom, ih]

theorem mapIdx_length (f : Nat → α → β) (l : List α) :
    (mapIdx f l).length = l.length :=
  mapIdxFrom_length f 0 l

theorem mapIdxFrom_get? (f : Nat → α → β) :
    ∀ (i : Nat) (l : List α) (j : Nat),
      (mapIdxFrom f i l).get? j = (l.get? j).map (f (i + j)) := by
  intro i l
  induction l generalizing i with
  | nil => intro j; simp [mapIdxFrom]
  | cons a as ih =>
    intro j
    cases j with
    | zero => simp [mapIdxFrom]
    | succ j =>
      have h := ih (i + 1) j
      have e : i + (j + 1) = i + 1 + j := by omega
      simp only [mapIdxFrom, List.get?, e]
      exact h

theorem mapIdx_get? (f : Nat → α → β) (l : List α) (j : Nat) :
    (mapIdx f l).get? j = (l.get? j).map (f j) := by
  have h := mapIdxFrom_get? f 0 l j
  simpa [mapIdx] using h

theorem formatAqiForecastData_length (gh : String → ℚ) (h : AqiForecastHourly) :
    (formatAqiForecastData gh (some ⟨some h⟩)).length = min 24 h.time.length := by
  simp [formatAqiForecastData, mapIdx_length]

theorem formatAqiForecastData_get (gh : String → ℚ) (h : AqiForecastHourly)
    (i : Nat) (t : String) (hi : i < 24) (ht : h.time.get? i = some t) :
    (formatAqiForecastData gh (some ⟨some h⟩)).get? i =
      some { name := .ofNum (gh t), aqi := h.european_aqi.get? i,
             pm2_5 := h.pm2_5.bind (fun l => l.get? i),
             pm10 := h.pm10.bind (fun l => l.get? i) } := by
  have htake : (h.time.take 24).get? i = some t := by
    rw [List.get?_eq_getElem?, List.getElem?_take_of_lt hi,
        ← List.get?_eq_getElem?, ht]
  simp only [formatAqiForecastData]
  rw [mapIdx_get?, htake]
  rfl

theorem formatPollenData_length (wd : String → String) (daily : PollenDaily) :
    (formatPollenData wd (some ⟨some daily⟩)).length = daily.time.length := by
  simp [formatPollenData, mapIdx_length]

theorem formatPollenData_get (wd : String → String) (daily : PollenDaily)
    (i : Nat) (t : String) (ht : daily.time.get? i = some t) :
    (formatPollenData wd (some ⟨some daily⟩)).get? i =
      some { name := .ofStr (wd t), grass := daily.grass_pollen.get? i,
             tree := daily.tree_pollen.get? i,
             weed := daily.weed_pollen.get? i } := by
  simp only [formatPollenData]
  rw [mapIdx_get?, ht]
  rfl

theorem fallbackHourlyInstants_get (now i : Nat) (hi : i < 24) :
    (fallbackHourlyInstants now).get? i = some (now + i) := by
  simp [fallbackHourlyInstants, List.get?_eq_getElem?, List.getElem?_range hi]

/-! ## Claim theorems -/

/-- C2: `getAQICategory` is a pure total function: every numeric input
falls in exactly one of the six tiers via inclusive ascending thresholds,
each tier a fixed record; the result changes across each boundary
(50/51, 100/101, 150/151, 200/201, 300/301), with `aqi = 300` Very
Unhealthy and `aqi = 301` Hazardous. -/
theorem getAQICategory_tier_table :
    (∀ a : ℚ, a ≤ 50 → getAQICategory a = goodCategory) ∧
    (∀ a : ℚ, 50 < a → a ≤ 100 → getAQICategory a = moderateCategory) ∧
    (∀ a : ℚ, 100 < a → a ≤ 150 → getAQICategory a = sensitiveGroupsCategory) ∧
    (∀ a : ℚ, 150 < a → a ≤ 200 → getAQICategory a = unhealthyCategory) ∧
    (∀ a : ℚ, 200 < a → a ≤ 300 → getAQICategory a = veryUnhealthyCategory) ∧
    (∀ a : ℚ, 300 < a → getAQICategory a = hazardousCategory) ∧
    (∀ a : ℚ, getAQICategory a = goodCategory ∨
      getAQICategory a = moderateCategory ∨
      getAQICategory a = sensitiveGroupsCategory ∨
      getAQICategory a = unhealthyCategory ∨
      getAQICategory a = veryUnhealthyCategory ∨
      getAQICategory a = hazardousCategory) ∧
    getAQICategory 50 ≠ getAQICategory 51 ∧
    getAQICategory 100 ≠ getAQICategory 101 ∧
    getAQICategory 150 ≠ getAQICategory 151 ∧
    getAQICategory 200 ≠ getAQICategory 201 ∧
    getAQICategory 300 = veryUnhealthyCategory ∧
    getAQICategory 301 = hazardousCategory := by
  refine ⟨?_, ?_, ?_, ?_, ?_, ?_, ?_, ?_, ?_, ?_, ?_, ?_, ?_⟩
  · intro a h1
    simp [getAQICategory, h1, goodCategory]
  · intro a h1 h2
    simp [getAQICategory, not_le.mpr h1, h2, moderateCategory]
  · intro a h1 h2
    simp [getAQICategory, not_le.mpr h1, not_le.mpr (by linarith : (50 : ℚ) < a),
      h2, sensitiveGroupsCategory]
  · intro a h1 h2
    simp [getAQICategory, not_le.mpr h1, not_le.mpr (by linarith : (50 : ℚ) < a),
      not_le.mpr (by linarith : (100 : ℚ) < a), h2, unhealthyCategory]
  · intro a h1 h2
    simp [getAQICategory, not_le.mpr h1, not_le.mpr (by linarith : (50 : ℚ) < a),
      not_le.mpr (by linarith : (100 : ℚ) < a),
      not_le.mpr (by linarith : (150 : ℚ) < a), h2, veryUnhealthyCategory]
  · intro a h1
    simp [getAQICategory, not_le.mpr h1, not_le.mpr (by linarith : (50 : ℚ) < a),
      not_le.mpr (by linarith : (100 : ℚ) < a),
      not_le.mpr (by linarith : (150 : ℚ) < a),
      not_le.mpr (by linarith : (200 : ℚ) < a), hazardousCategory]
  · intro a
    unfold getAQICategory goodCategory moderateCategory sensitiveGroupsCategory
      unhealthyCategory veryUnhealthyCategory hazardousCategory
    split_ifs <;> simp
  · decide
  · decide
  · decide
  · decide
  · decide
  · decide

/-- C2 witness: the tier table evaluated at concrete inputs. -/
theorem getAQICategory_tier_table_witness :
    ((42 : ℚ) ≤ 50 ∧ getAQICategory 42 = goodCategory) ∧
    ((50 : ℚ) < 85 ∧ (85 : ℚ) ≤ 100 ∧ getAQICategory 85 = moderateCategory) ∧
    ((300 : ℚ) < 301 ∧ getAQICategory 301 = hazardousCategory) :=
  ⟨⟨by decide, getAQICategory_tier_table.1 42 (by decide)⟩,
   ⟨by decide, by decide,
    getAQICategory_tier_table.2.1 85 (by decide) (by decide)⟩,
   ⟨by decide, getAQICategory_tier_table.2.2.2.2.2.1 301 (by decide)⟩⟩

/-- C3: when every attempt of the air-quality current fetch fails (the
initial try plus the 3 configured retries), the query settles failed with
no data, the failure is absorbed as a single console line (never thrown),
and the effective air-quality snapshot is the fallback, whose
`current.aqi` is 85 and whose `current.aqiCategory.label` is
`"Moderate"`. -/
theorem airQuality_retry_exhaustion_falls_back
    (attempts : Nat → Except String AirQualityData) (e3 : String)
    (hfail : ∀ i, i < 4 → ∃ e, attempts i = Except.error e)
    (h3 : attempts 3 = Except.error e3)
    (now : Nat) (toISO : Nat → String) (r1 r2 r3 : Nat → ℚ) :
    runQuery airQualityQueryConfig attempts =
      ({ data := none, isLoading := false, error := some e3 },
       [{ heading := "Air quality data fetch error:", detail := e3 }]) ∧
    effectiveAirQualityData none now toISO r1 r2 r3 =
      fallbackAirQualityData now toISO r1 r2 r3 ∧
    (fallbackAirQualityData now toISO r1 r2 r3).current.aqi = 85 ∧
    (fallbackAirQualityData now toISO r1 r2 r3).current.aqiCategory.label =
      "Moderate" := by
  obtain ⟨e0, h0⟩ := hfail 0 (by norm_num)
  obtain ⟨e1, h1⟩ := hfail 1 (by norm_num)
  obtain ⟨e2, h2⟩ := hfail 2 (by norm_num)
  have hlabel : (getAQICategory (85 : ℚ)).label = "Moderate" := by decide
  refine ⟨?_, rfl, rfl, hlabel⟩
  have hrange : List.range (airQualityQueryConfig.retry + 1) = [0, 1, 2, 3] := by
    decide
  simp only [runQuery, hrange, List.map, h0, h1, h2, h3, firstOk,
    airQualityQueryConfig]

/-- C3 witness: every attempt failing with a concrete network error. -/
theorem airQuality_retry_exhaustion_falls_back_witness :
    runQuery airQualityQueryConfig
        (fun _ => (Except.error "ECONNREFUSED" : Except String AirQualityData)) =
      ({ data := none, isLoading := false, error := some "ECONNREFUSED" },
       [{ heading := "Air quality data fetch error:",
          detail := "ECONNREFUSED" }]) ∧
    effectiveAirQualityData none 0 (fun _ => "1970-01-01T00:00:00.000Z")
        (fun _ => 0) (fun _ => 0) (fun _ => 0) =
      fallbackAirQualityData 0 (fun _ => "1970-01-01T00:00:00.000Z")
        (fun _ => 0) (fun _ => 0) (fun _ => 0) ∧
    (fallbackAirQualityData 0 (fun _ => "1970-01-01T00:00:00.000Z")
        (fun _ => 0) (fun _ => 0) (fun _ => 0)).current.aqi = 85 ∧
    (fallbackAirQualityData 0 (fun _ => "1970-01-01T00:00:00.000Z")
        (fun _ => 0) (fun _ => 0)
        (fun _ => 0)).current.aqiCategory.label = "Moderate" :=
  airQuality_retry_exhaustion_falls_back
    (fun _ => (Except.error "ECONNREFUSED" : Except String AirQualityData)) "ECONNREFUSED"
    (fun _ _ => ⟨"ECONNREFUSED", rfl⟩) rfl 0
    (fun _ => "1970-01-01T00:00:00.000Z") (fun _ => 0) (fun _ => 0) (fun _ => 0)

/-- C1 (code bug): in the settled-failed rendering state (data absent,
loading false) the non-loading branch of the Current Air Quality card
reads `airQualityData.current` on the raw query value and throws a
`TypeError`, even though `effectiveAirQualityData` — computed but never
read by the render — would have supplied the fallback snapshot. -/
theorem renderAirQualityCard_failed_state_throws :
    (runQuery airQualityQueryConfig
        (fun _ => (Except.error "ECONNREFUSED" : Except String AirQualityData))).1.data = none ∧
    (runQuery airQualityQueryConfig
        (fun _ => (Except.error "ECONNREFUSED" : Except String AirQualityData))).1.isLoading = false ∧
    renderCurrentAirQualityCard
        (runQuery airQualityQueryConfig
          (fun _ => (Except.error "ECONNREFUSED" : Except String AirQualityData))).1 =
      Except.error
        "TypeError: Cannot read properties of undefined (reading current)" ∧
    effectiveAirQualityData none 0 (fun _ => "1970-01-01T00:00:00.000Z")
        (fun _ => 0) (fun _ => 0) (fun _ => 0) =
      fallbackAirQualityData 0 (fun _ => "1970-01-01T00:00:00.000Z")
        (fun _ => 0) (fun _ => 0) (fun _ => 0) :=
  ⟨rfl, rfl, rfl, rfl⟩

/-- C4 counterexample: the static pollen fallback does not match the
`PollenData` live-data shape — its top-level keys are
`grass`/`tree`/`weed`/`mold` level records and it has no `daily` block of
parallel arrays. -/
theorem fallbackPollenData_shape_mismatch :
    matchesPollenDataShape fallbackPollenDataJson = false ∧
    Json.keys fallbackPollenDataJson = ["grass", "tree", "weed", "mold"] ∧
    Json.getField fallbackPollenDataJson "daily" = none := by
  refine ⟨by decide, by decide, ?_⟩
  simp [Json.getField, fallbackPollenDataJson, List.find?]

/-- C4 (amended): the health-recommendations fallback matches the
live-data shape (same keys, same nesting), but the pollen fallback does
not match the `PollenData` shape — it is a static
`grass`/`tree`/`weed`/`mold` level/category record with no `daily`
parallel-array block. -/
theorem fallback_static_shapes :
    matchesHealthRecommendationsShape fallbackHealthRecommendationsDataJson =
      true ∧
    matchesPollenDataShape fallbackPollenDataJson = false ∧
    Json.keys fallbackPollenDataJson = ["grass", "tree", "weed", "mold"] := by
  exact ⟨by decide, by decide, by decide⟩

/-- C5: for any forecast input with an `hourly` block, the output length
of `formatAqiForecastData` is `min 24 (length hourly.time)` (hence at most
24); an input with 30 timestamps yields exactly 24 points; and each point,
in input order, carries the hour extracted from the corresponding
timestamp, the `european_aqi` entry at the same index, and the optional
`pm2_5`/`pm10` entries at the same index when those series are present. -/
theorem formatAqiForecastData_spec (gh : String → ℚ) (d : AqiForecastData)
    (h : AqiForecastHourly) (hh : d.hourly = some h) :
    (formatAqiForecastData gh (some d)).length = min 24 h.time.length ∧
    (formatAqiForecastData gh (some d)).length ≤ 24 ∧
    (h.time.length = 30 → (formatAqiForecastData gh (some d)).length = 24) ∧
    (∀ i t, i < 24 → h.time.get? i = some t →
      (formatAqiForecastData gh (some d)).get? i =
        some { name := .ofNum (gh t), aqi := h.european_aqi.get? i,
               pm2_5 := h.pm2_5.bind (fun l => l.get? i),
               pm10 := h.pm10.bind (fun l => l.get? i) }) := by
  obtain ⟨hourly⟩ := d
  cases hh
  refine ⟨formatAqiForecastData_length gh h, ?_, ?_, ?_⟩
  · rw [formatAqiForecastData_length gh h]
    omega
  · intro h30
    rw [formatAqiForecastData_length gh h, h30]
    omega
  · intro i t hi ht
    exact formatAqiForecastData_get gh h i t hi ht

/-- C5 witness: the Scenario A 30-timestamp forecast yields 24 points,
and the first point carries the first timestamp's hour and the index-0
series values. -/
theorem formatAqiForecastData_spec_witness :
    (formatAqiForecastData (fun _ => 7) (some scenarioAForecast)).length =
      24 ∧
    (formatAqiForecastData (fun _ => 7) (some scenarioAForecast)).get? 0 =
      some { name := .ofNum 7, aqi := some 60, pm2_5 := none, pm10 := none } :=
  ⟨(formatAqiForecastData_spec (fun _ => 7) scenarioAForecast _ rfl).2.2.1 rfl,
   (formatAqiForecastData_spec (fun _ => 7) scenarioAForecast _ rfl).2.2.2 0
     "2024-01-01T07:00:00.000Z" (by decide) rfl⟩

/-- C6: a missing nested block is treated as empty rather than failing:
`formatAqiForecastData` on `undefined` or on an input without `hourly`
returns `[]`, and `formatPollenData` on `undefined` or on an input without
`daily` returns `[]`. -/
theorem shapers_empty_on_missing_block (gh : String → ℚ)
    (wd : String → String) :
    formatAqiForecastData gh none = [] ∧
    formatAqiForecastData gh (some { hourly := none }) = [] ∧
    formatPollenData wd none = [] ∧
    formatPollenData wd (some { daily := none }) = [] :=
  ⟨rfl, rfl, rfl, rfl⟩

/-- C7: for any pollen input with a `daily` block, `formatPollenData`
emits one point per index of `daily.time`, whose name is the weekday
abbreviation of the timestamp and whose grass/tree/weed values come from
the parallel arrays at the same index; on the Scenario C two-day input the
first point carries grass 1, tree 3, weed 5. -/
theorem formatPollenData_spec (wd : String → String) (d : PollenData)
    (daily : PollenDaily) (hd : d.daily = some daily) :
    (formatPollenData wd (some d)).length = daily.time.length ∧
    (∀ i t, daily.time.get? i = some t →
      (formatPollenData wd (some d)).get? i =
        some { name := .ofStr (wd t), grass := daily.grass_pollen.get? i,
               tree := daily.tree_pollen.get? i,
               weed := daily.weed_pollen.get? i }) ∧
    (formatPollenData wd (some scenarioCPollen)).length = 2 ∧
    (formatPollenData wd (some scenarioCPollen)).get? 0 =
      some { name := .ofStr (wd "2024-01-01"), grass := some 1,
             tree := some 3, weed := some 5 } := by
  obtain ⟨db⟩ := d
  cases hd
  refine ⟨formatPollenData_length wd daily, ?_, rfl, rfl⟩
  intro i t ht
  exact formatPollenData_get wd daily i t ht

/-- C7 witness: Scenario C evaluated concretely. -/
theorem formatPollenData_spec_witness :
    (formatPollenData (fun _ => "Mon") (some scenarioCPollen)).length = 2 ∧
    (formatPollenData (fun _ => "Mon") (some scenarioCPollen)).get? 0 =
      some { name := .ofStr "Mon", grass := some 1, tree := some 3,
             weed := some 5 } :=
  ⟨(formatPollenData_spec (fun _ => "Mon") scenarioCPollen _ rfl).2.2.1,
   (formatPollenData_spec (fun _ => "Mon") scenarioCPollen _ rfl).2.2.2⟩

/-- C8: both fallback hourly series (air-quality and AQI forecast) have
24-entry `time` arrays serialized from instants that begin at the current
hour and increase by exactly one hour per entry (hence strictly
monotonically), and every parallel value array also has length 24. -/
theorem fallbackHourlySeries_shape (now : Nat) (toISO : Nat → String)
    (r1 r2 r3 ra : Nat → ℚ) :
    (∃ h, (fallbackAirQualityData now toISO r1 r2 r3).hourly = some h ∧
      h.time = (fallbackHourlyInstants now).map toISO ∧
      h.time.length = 24 ∧ h.pm2_5.length = 24 ∧ h.pm10.length = 24 ∧
      h.aqi.length = 24) ∧
    (∃ g, (fallbackAqiForecastData now toISO ra).hourly = some g ∧
      g.time = (fallbackHourlyInstants now).map toISO ∧
      g.time.length = 24 ∧ g.european_aqi.length = 24) ∧
    (fallbackHourlyInstants now).length = 24 ∧
    (fallbackHourlyInstants now).get? 0 = some now ∧
    (∀ i, i < 24 → (fallbackHourlyInstants now).get? i = some (now + i)) ∧
    List.Pairwise (· < ·) (fallbackHourlyInstants now) := by
  refine ⟨⟨_, rfl, rfl, by simp [fallbackHourlyInstants], by simp,
            by simp, by simp⟩,
          ⟨_, rfl, rfl, by simp [fallbackHourlyInstants], by simp⟩,
          by simp [fallbackHourlyInstants], ?_, ?_, ?_⟩
  · simpa using fallbackHourlyInstants_get now 0 (by norm_num)
  · intro i hi
    exact fallbackHourlyInstants_get now i hi
  · exact (List.pairwise_lt_range 24).map (fun i => now + i)
      (fun a b hab => show now + a < now + b by omega)

/-- C8 witness: the instants of a fallback hourly series starting at hour
40, evaluated concretely. -/
theorem fallbackHourlySeries_shape_witness :
    (fallbackHourlyInstants 40).length = 24 ∧
    (fallbackHourlyInstants 40).get? 0 = some 40 ∧
    ((5 : Nat) < 24 ∧ (fallbackHourlyInstants 40).get? 5 = some 45) ∧
    List.Pairwise (· < ·) (fallbackHourlyInstants 40) :=
  ⟨(fallbackHourlySeries_shape 40 (fun _ => "") (fun _ => 0) (fun _ => 0)
      (fun _ => 0) (fun _ => 0)).2.2.1,
   (fallbackHourlySeries_shape 40 (fun _ => "") (fun _ => 0) (fun _ => 0)
      (fun _ => 0) (fun _ => 0)).2.2.2.1,
   ⟨by decide,
    (fallbackHourlySeries_shape 40 (fun _ => "") (fun _ => 0) (fun _ => 0)
      (fun _ => 0) (fun _ => 0)).2.2.2.2.1 5 (by decide)⟩,
   (fallbackHourlySeries_shape 40 (fun _ => "") (fun _ => 0) (fun _ => 0)
      (fun _ => 0) (fun _ => 0)).2.2.2.2.2⟩

/-- C9: when a value series is shorter than the shared `time` array, both
shapers still emit one point per time index in scope, with the missing
index read as an absent value rather than failing. -/
theorem shapers_degrade_on_short_series (gh : String → ℚ)
    (wd : String → String) (h : AqiForecastHourly) (daily : PollenDaily)
    (i j : Nat) (t u : String)
    (hi : i < 24) (ht : h.time.get? i = some t)
    (haqi : h.european_aqi.length ≤ i)
    (hu : daily.time.get? j = some u)
    (hg : daily.grass_pollen.length ≤ j) :
    (formatAqiForecastData gh (some ⟨some h⟩)).length =
      min 24 h.time.length ∧
    (formatAqiForecastData gh (some ⟨some h⟩)).get? i =
      some { name := .ofNum (gh t), aqi := none,
             pm2_5 := h.pm2_5.bind (fun l => l.get? i),
             pm10 := h.pm10.bind (fun l => l.get? i) } ∧
    (formatPollenData wd (some ⟨some daily⟩)).length = daily.time.length ∧
    (formatPollenData wd (some ⟨some daily⟩)).get? j =
      some { name := .ofStr (wd u), grass := none,
             tree := daily.tree_pollen.get? j,
             weed := daily.weed_pollen.get? j } := by
  have haqiNone : h.european_aqi.get? i = none := by
    rw [List.get?_eq_getElem?]
    exact List.getElem?_eq_none haqi
  have hgNone : daily.grass_pollen.get? j = none := by
    rw [List.get?_eq_getElem?]
    exact List.getElem?_eq_none hg
  refine ⟨formatAqiForecastData_length gh h, ?_,
          formatPollenData_length wd daily, ?_⟩
  · rw [formatAqiForecastData_get gh h i t hi ht, haqiNone]
  · rw [formatPollenData_get wd daily j u hu, hgNone]

/-- C9 witness: two-timestamp inputs whose first value series has a
single entry, read at index 1. -/
theorem shapers_degrade_on_short_series_witness :
    (formatAqiForecastData (fun _ => 1)
        (some ⟨some shortSeriesForecastHourly⟩)).get? 1 =
      some { name := .ofNum 1, aqi := none, pm2_5 := none, pm10 := none } ∧
    (formatPollenData (fun _ => "Tue")
        (some ⟨some shortSeriesPollenDaily⟩)).get? 1 =
      some { name := .ofStr "Tue", grass := none, tree := some 4,
             weed := some 6 } :=
  ⟨(shapers_degrade_on_short_series (fun _ => 1) (fun _ => "Tue")
      shortSeriesForecastHourly shortSeriesPollenDaily 1 1
      "2024-01-01T01:00:00.000Z" "2024-01-02" (by decide) rfl
      (by decide) rfl (by decide)).2.1,
   (shapers_degrade_on_short_series (fun _ => 1) (fun _ => "Tue")
      shortSeriesForecastHourly shortSeriesPollenDaily 1 1
      "2024-01-01T01:00:00.000Z" "2024-01-02" (by decide) rfl
      (by decide) rfl (by decide)).2.2.2⟩

/-- C10: for any pollen input with a `daily` block, the output length of
`formatPollenData` equals the length of `daily.time` exactly, with no
24-entry cap: more than 24 daily entries yield more than 24 points. -/
theorem formatPollenData_no_cap (wd : String → String) (d : PollenData)
    (daily : PollenDaily) (hd : d.daily = some daily) :
    (formatPollenData wd (some d)).length = daily.time.length ∧
    (24 < daily.time.length → 24 < (formatPollenData wd (some d)).length) := by
  obtain ⟨db⟩ := d
  cases hd
  refine ⟨formatPollenData_length wd daily, ?_⟩
  intro h24
  rw [formatPollenData_length wd daily]
  exact h24

/-- C10 witness: a 25-day pollen input yields 25 points. -/
theorem formatPollenData_no_cap_witness :
    (formatPollenData (fun _ => "Mon") (some longPollen)).length = 25 ∧
    24 < (formatPollenData (fun _ => "Mon") (some longPollen)).length :=
  ⟨by rw [(formatPollenData_no_cap (fun _ => "Mon") longPollen _ rfl).1]
      simp [longPollen],
   (formatPollenData_no_cap (fun _ => "Mon") longPollen _ rfl).2
     (by simp [longPollen])⟩

end Health

